import Mathlib

/- Shallow embedding of the asynchronous TCP/UDP network device in
   src/os/dev-net.c (Ren-C).  Machine fields (REBCNT, int, SOCKET) are
   modelled as Nat/Int; every OS system call's outcome is an explicit
   environment argument of the handler; calls to Signal_Device are
   recorded in an emitted event list (Signal_Device itself lives in the
   host layer, outside the sources: per the spec it only "marks a
   request's completion/error/event type so the owning runtime's
   dispatcher can wake the logical caller", so it is modelled as pure
   event emission); the system calls a handler issues are recorded in a
   trace list so that frame properties (no syscall issued, handle
   released at most once) can be stated. -/

/- Tri-state outcome of a device command: DR_DONE / DR_PEND / DR_ERROR. -/
inductive DRet where
  | DR_DONE
  | DR_PEND
  | DR_ERROR
deriving DecidableEq

/- Event types passed to Signal_Device in dev-net.c (from reb-evtypes.h). -/
inductive EvType where
  | EVT_LOOKUP
  | EVT_CONNECT
  | EVT_WROTE
  | EVT_READ
  | EVT_CLOSE
  | EVT_ACCEPT
deriving DecidableEq

/- Device command identifiers, in dispatch-table order (the table at the
   bottom of dev-net.c is commented "RDC_ enum order" and lists
   Init, Quit, Open, Close, Read, Write, poll, connect, query, modify,
   Create, delete, rename, lookup). -/
inductive RDC where
  | RDC_INIT
  | RDC_QUIT
  | RDC_OPEN
  | RDC_CLOSE
  | RDC_READ
  | RDC_WRITE
  | RDC_POLL
  | RDC_CONNECT
  | RDC_QUERY
  | RDC_MODIFY
  | RDC_CREATE
  | RDC_DELETE
  | RDC_RENAME
  | RDC_LOOKUP
deriving DecidableEq

/- The RSM_ state bitset of a request (req->state).  Each C bit flag is
   one Boolean field; clearing the whole word (req->state = 0) is the
   default value. -/
structure ReqState where
  rsm_open : Bool := false
  rsm_bind : Bool := false
  rsm_listen : Bool := false
  rsm_attempt : Bool := false
  rsm_connect : Bool := false
  rsm_send : Bool := false
  rsm_receive : Bool := false
deriving DecidableEq

/- The RST_ mode bitset of a request (req->modes): transport and role,
   immutable configuration set before open. -/
structure ReqModes where
  rst_udp : Bool := false
  rst_listen : Bool := false
deriving DecidableEq

/- The RRF_ flag bits of req->flags that dev-net.c touches. -/
structure ReqFlags where
  rrf_open : Bool := false
  rrf_done : Bool := false
  rrf_active : Bool := false
deriving DecidableEq

/- System calls a handler can issue, recorded as a trace. -/
inductive OsCall where
  | socketCreate (dgram : Bool)
  | closeSock (h : Nat)
  | connectC (h : Nat)
  | sendtoC (h : Nat) (len : Nat)
  | recvfromC (h : Nat) (len : Nat)
  | acceptC (h : Nat)
  | setsockoptC
  | bindC
  | listenC
  | getsocknameC (h : Nat)
  | gethostbynameC
  | freeHostInfo
deriving DecidableEq

/- Scalar fields of one network request (REBREQ plus the devreq_net
   extension).  Defaults are the all-zero fill of OS_ALLOC_ZEROFILL.
   Notes on the translation:
   - id models pointer identity of the request object (Signal_Device
     takes the request pointer; the accept handler signals the listener
     and not the freshly allocated child, which is only observable
     through identity).
   - common.data (a byte pointer, also reused as a frame pointer by
     MODIFY) is modelled as the abstract address common_data; the MODIFY
     sub-operation code that the caller passes in the flags word (the C
     switch (sock->flags) on 3171 / 2365) is modelled as the separate
     field modifyCode, because no handler reads both uses at once.
   - host_info is the DNS scratch pointer; none models NULL. -/
structure SockReqBase where
  id : Nat := 0
  device : Nat := 0
  command : RDC := .RDC_INIT
  error : Int := 0
  modes : ReqModes := {}
  state : ReqState := {}
  flags : ReqFlags := {}
  requestee_socket : Nat := 0
  length : Nat := 0
  actual : Nat := 0
  common_data : Nat := 0
  modifyCode : Nat := 0
  local_ip : Nat := 0
  local_port : Nat := 0
  remote_ip : Nat := 0
  remote_port : Nat := 0
  host_info : Option Nat := none
deriving DecidableEq

/- A request together with its pending-accept queue (the C union field
   common.sock, a linked list of freshly accepted requests).  Children
   sitting in the queue are zero-filled allocations whose own queue is
   NULL, so they are represented by SockReqBase. -/
structure SockReq extends SockReqBase where
  common_sock : List SockReqBase := []
deriving DecidableEq

/- Result of one handler invocation: the updated request, the tri-state
   return, the Signal_Device events emitted (request identity, event
   type) and the system calls issued. -/
structure HandlerOut where
  req : SockReq
  ret : DRet
  signals : List (Nat × EvType) := []
  syscalls : List OsCall := []
deriving DecidableEq

/- Modelled from the spec: the NE_ errno aliases come from sys-net.h,
   which is not among the sources; the concrete numbers are the POSIX
   (Linux) values.  The development relies only on their being distinct
   and nonzero.  The Windows-only NE_INVALID remapping is not modelled
   (TO_WINDOWS is not defined for the POSIX build). -/
def NE_WOULDBLOCK : Int := 11

def NE_INPROGRESS : Int := 115

def NE_ALREADY : Int := 114

def NE_ISCONN : Int := 106

/- Modelled from the spec: MAX_TRANSFER (the per-call transfer cap of
   "Limit size of transfer") is defined outside the sources; only its
   positivity matters to any claim. -/
def MAX_TRANSFER : Nat := 32000

/- Outcomes of the two option calls made by Set_Sock_Options:
   setsockopt(SO_NOSIGPIPE) and the non-blocking ioctl/fcntl. -/
structure SsoEnv where
  nosigpipeOk : Bool := true
  nonblockOk : Bool := true
deriving DecidableEq

/- Set_Sock_Options: applies SO_NOSIGPIPE (where available) and then
   non-blocking mode; TRUE exactly when no call failed. -/
def Set_Sock_Options (env : SsoEnv) : Bool :=
  env.nosigpipeOk && env.nonblockOk

/- Environment for Open_Socket: outcome of socket() (none = BAD_SOCKET),
   the GET_ERROR value after a failed socket(), the option-call outcomes
   and the GET_ERROR value after a failed Set_Sock_Options. -/
structure OpenEnv where
  socketResult : Option Nat := some 0
  socketErrno : Int := 0
  sso : SsoEnv := {}
  ssoErrno : Int := 0
deriving DecidableEq

/- Open_Socket: clears error and state, picks SOCK_DGRAM/IPPROTO_UDP or
   SOCK_STREAM/IPPROTO_TCP from the modes, creates the socket, then (on
   success) stores the handle, sets RSM_OPEN and applies the socket
   options. -/
def Open_Socket (env : OpenEnv) (sock0 : SockReq) : HandlerOut :=
  let sock := { sock0 with error := 0, state := {} }
  match env.socketResult with
  | none =>
    { req := { sock with error := env.socketErrno }, ret := .DR_ERROR,
      syscalls := [.socketCreate sock.modes.rst_udp] }
  | some h =>
    let sock := { sock with requestee_socket := h,
                            state := { sock.state with rsm_open := true } }
    if Set_Sock_Options env.sso then
      { req := sock, ret := .DR_DONE,
        syscalls := [.socketCreate sock.modes.rst_udp] }
    else
      { req := { sock with error := env.ssoErrno }, ret := .DR_ERROR,
        syscalls := [.socketCreate sock.modes.rst_udp] }

/- Environment for Close_Socket: outcome of CLOSE_SOCKET and the
   GET_ERROR value when it fails. -/
structure CloseEnv where
  closeOk : Bool := true
  closeErrno : Int := 0
deriving DecidableEq

/- Close_Socket: zeroes error; when RSM_OPEN is set it clears the whole
   state word, aborts a pending DNS phase (OS_FREE of host_info and
   restoring the socket from the length field; the C code frees but does
   not null the pointer, so host_info keeps its stale value) and then
   closes the handle; when RSM_OPEN is clear it does nothing else. -/
def Close_Socket (env : CloseEnv) (req0 : SockReq) : HandlerOut :=
  let req := { req0 with error := 0 }
  if req.state.rsm_open then
    let req := { req with state := {} }
    let dns := req.host_info.isSome
    let req := if dns then { req with requestee_socket := req.length } else req
    let pre : List OsCall := if dns then [.freeHostInfo] else []
    if env.closeOk then
      { req := req, ret := .DR_DONE,
        syscalls := pre ++ [.closeSock req.requestee_socket] }
    else
      { req := { req with error := env.closeErrno }, ret := .DR_ERROR,
        syscalls := pre ++ [.closeSock req.requestee_socket] }
  else
    { req := req, ret := .DR_DONE }

/- Environment for Lookup_Socket: the gethostbyname outcome (the 4-byte
   address copied from h_addr_list, or none on failure) and the
   GET_ERROR value on failure. -/
structure LookupEnv where
  hostIp : Option Nat := some 0
  errno : Int := 0
deriving DecidableEq

/- Lookup_Socket: nulls host_info, performs the blocking gethostbyname;
   on success copies the address into remote_ip, clears RRF_DONE,
   signals EVT_LOOKUP and returns DR_DONE; on failure records GET_ERROR
   and returns DR_ERROR. -/
def Lookup_Socket (env : LookupEnv) (req0 : SockReq) : HandlerOut :=
  let req := { req0 with host_info := none }
  match env.hostIp with
  | some ip =>
    let req := { req with remote_ip := ip,
                          flags := { req.flags with rrf_done := false } }
    { req := req, ret := .DR_DONE, signals := [(req.id, .EVT_LOOKUP)],
      syscalls := [.gethostbynameC] }
  | none =>
    { req := { req with error := env.errno }, ret := .DR_ERROR,
      syscalls := [.gethostbynameC] }

/- Environment for Listen_Socket: outcomes of setsockopt(SO_REUSEADDR),
   bind and listen, the GET_ERROR value at the failing call, and the
   getsockname result used by Get_Local_IP. -/
structure ListenEnv where
  reuseOk : Bool := true
  bindOk : Bool := true
  listenOk : Bool := true
  errno : Int := 0
  localIp : Nat := 0
  localPort : Nat := 0
deriving DecidableEq

/- Listen_Socket: allows address reuse, binds the wildcard address at
   local_port, sets RSM_BIND, for TCP marks the socket listening with
   RSM_LISTEN, queries the local endpoint, switches the request command
   to RDC_CREATE and returns DR_PEND; any failing call jumps to the
   shared error exit with GET_ERROR. -/
def Listen_Socket (env : ListenEnv) (req0 : SockReq) : HandlerOut :=
  if env.reuseOk = false then
    { req := { req0 with error := env.errno }, ret := .DR_ERROR,
      syscalls := [.setsockoptC] }
  else if env.bindOk = false then
    { req := { req0 with error := env.errno }, ret := .DR_ERROR,
      syscalls := [.setsockoptC, .bindC] }
  else
    let req := { req0 with state := { req0.state with rsm_bind := true } }
    if req.modes.rst_udp = false ∧ env.listenOk = false then
      { req := { req with error := env.errno }, ret := .DR_ERROR,
        syscalls := [.setsockoptC, .bindC, .listenC] }
    else
      let req := if req.modes.rst_udp = false then
          { req with state := { req.state with rsm_listen := true } }
        else req
      { req := { req with local_ip := env.localIp, local_port := env.localPort,
                          command := .RDC_CREATE },
        ret := .DR_PEND,
        syscalls :=
          if req.modes.rst_udp = false then
            [.setsockoptC, .bindC, .listenC, .getsocknameC req.requestee_socket]
          else
            [.setsockoptC, .bindC, .getsocknameC req.requestee_socket] }

/- Environment for Connect_Socket: the connect() outcome (connectOk true
   when it returned 0), the GET_ERROR value otherwise, the getsockname
   result for Get_Local_IP, and the listen environment for the listener
   delegation. -/
structure ConnectEnv where
  connectOk : Bool := true
  connectErrno : Int := 0
  localIp : Nat := 0
  localPort : Nat := 0
  listenEnv : ListenEnv := {}
deriving DecidableEq

/- Connect_Socket: a listener delegates to Listen_Socket; an already
   connected request returns DR_DONE at once; UDP moves straight to
   CONNECT after querying the local endpoint; TCP issues the
   non-blocking connect and switches on the resulting code (0 or
   NE_ISCONN connects; NE_WOULDBLOCK / NE_INPROGRESS / NE_ALREADY keep
   trying with RSM_ATTEMPT and DR_PEND; anything else clears RSM_ATTEMPT,
   records the code in error and returns DR_ERROR). -/
def Connect_Socket (env : ConnectEnv) (req0 : SockReq) : HandlerOut :=
  if req0.modes.rst_listen then Listen_Socket env.listenEnv req0
  else if req0.state.rsm_connect then { req := req0, ret := .DR_DONE }
  else if req0.modes.rst_udp then
    let req := { req0 with
      state := { req0.state with rsm_attempt := false, rsm_connect := true },
      local_ip := env.localIp, local_port := env.localPort }
    { req := req, ret := .DR_DONE, signals := [(req.id, .EVT_CONNECT)],
      syscalls := [.getsocknameC req.requestee_socket] }
  else
    let result : Int := if env.connectOk then 0 else env.connectErrno
    if result = 0 ∨ result = NE_ISCONN then
      let req := { req0 with
        state := { req0.state with rsm_attempt := false, rsm_connect := true },
        local_ip := env.localIp, local_port := env.localPort }
      { req := req, ret := .DR_DONE, signals := [(req.id, .EVT_CONNECT)],
        syscalls := [.connectC req.requestee_socket,
                     .getsocknameC req.requestee_socket] }
    else if result = NE_WOULDBLOCK ∨ result = NE_INPROGRESS ∨
        result = NE_ALREADY then
      { req := { req0 with state := { req0.state with rsm_attempt := true } },
        ret := .DR_PEND, syscalls := [.connectC req0.requestee_socket] }
    else
      { req := { req0 with state := { req0.state with rsm_attempt := false },
                           error := result },
        ret := .DR_ERROR, syscalls := [.connectC req0.requestee_socket] }

/- Environment for Transfer_Socket: the sendto/recvfrom return value,
   the GET_ERROR value when it is negative, and the peer address that
   recvfrom reports. -/
structure TransferEnv where
  ioResult : Int := 0
  errno : Int := 0
  peerIp : Nat := 0
  peerPort : Nat := 0
deriving DecidableEq

/- Transfer_Socket: the direction comes from req->command (RDC_READ is a
   receive, anything else a send); a request that is neither CONNECTED
   nor UDP fails with the fixed code -18; the handler then sets the
   state flag of its own direction (the C comment notes the mode flag is
   cleared by the caller, not here) and moves at most
   MIN(length - actual, MAX_TRANSFER) bytes in one call.  Send advances
   the data cursor and actual on success and finishes with EVT_WROTE
   when actual reaches length, otherwise sets RRF_ACTIVE and pends.
   Receive stores a positive count in actual (single-shot) with
   EVT_READ; a zero read is an orderly peer shutdown: actual := 0, clear
   RSM_CONNECT, EVT_CLOSE, DR_DONE.  A negative result pends on
   NE_WOULDBLOCK and otherwise records GET_ERROR and errors.  The C
   subtraction req->length - req->actual is REBCNT arithmetic; it is
   exact here because every theorem carries actual <= length. -/
def Transfer_Socket (env : TransferEnv) (req0 : SockReq) : HandlerOut :=
  let isRecv := req0.command = RDC.RDC_READ
  if req0.state.rsm_connect = false ∧ req0.modes.rst_udp = false then
    { req := { req0 with error := -18 }, ret := .DR_ERROR }
  else
    let req := if isRecv then
        { req0 with state := { req0.state with rsm_receive := true } }
      else
        { req0 with state := { req0.state with rsm_send := true } }
    let len := min (req.length - req.actual) MAX_TRANSFER
    if isRecv then
      if 0 < env.ioResult then
        let req := if req.modes.rst_udp then
            { req with remote_ip := env.peerIp, remote_port := env.peerPort }
          else req
        { req := { req with actual := env.ioResult.toNat }, ret := .DR_DONE,
          signals := [(req.id, .EVT_READ)],
          syscalls := [.recvfromC req.requestee_socket len] }
      else if env.ioResult = 0 then
        { req := { req with actual := 0,
                            state := { req.state with rsm_connect := false } },
          ret := .DR_DONE, signals := [(req.id, .EVT_CLOSE)],
          syscalls := [.recvfromC req.requestee_socket len] }
      else if env.errno = NE_WOULDBLOCK then
        { req := req, ret := .DR_PEND,
          syscalls := [.recvfromC req.requestee_socket len] }
      else
        { req := { req with error := env.errno }, ret := .DR_ERROR,
          syscalls := [.recvfromC req.requestee_socket len] }
    else
      if 0 ≤ env.ioResult then
        let r := env.ioResult.toNat
        let req := { req with common_data := req.common_data + r,
                              actual := req.actual + r }
        if req.length ≤ req.actual then
          { req := req, ret := .DR_DONE, signals := [(req.id, .EVT_WROTE)],
            syscalls := [.sendtoC req.requestee_socket len] }
        else
          { req := { req with flags := { req.flags with rrf_active := true } },
            ret := .DR_PEND, syscalls := [.sendtoC req.requestee_socket len] }
      else if env.errno = NE_WOULDBLOCK then
        { req := req, ret := .DR_PEND,
          syscalls := [.sendtoC req.requestee_socket len] }
      else
        { req := { req with error := env.errno }, ret := .DR_ERROR,
          syscalls := [.sendtoC req.requestee_socket len] }

/- Environment for Modify_Socket: the frame arguments the handler reads
   through common.data (group and member tuples, the drop refinement,
   the TTL value), the setsockopt return value, and the GET_ERROR value,
   which Modify_Socket never consults. -/
structure ModifyEnv where
  group : Nat := 0
  member : Nat := 0
  drop : Bool := false
  ttl : Int := 0
  setsockoptResult : Int := 0
  errno : Int := 0
deriving DecidableEq

/- Modify_Socket: dispatches on the sub-operation code passed in the
   flags word (3171 = set-udp-multicast, 2365 = set-udp-ttl); either one
   demands RST_UDP (else the fixed code -18 and DR_ERROR), then issues
   the setsockopt; a negative setsockopt return value is stored verbatim
   in the error slot (the code does not call GET_ERROR here) with
   DR_ERROR, otherwise DR_DONE.  Any other code reaches fail("Unknown
   socket MODIFY operation"), which raises in the host and returns no
   tri-state outcome: modelled as none. -/
def Modify_Socket (env : ModifyEnv) (sock : SockReq) : Option HandlerOut :=
  if sock.modifyCode = 3171 then
    if sock.modes.rst_udp = false then
      some { req := { sock with error := -18 }, ret := .DR_ERROR }
    else
      let result := env.setsockoptResult
      if result < 0 then
        some { req := { sock with error := result }, ret := .DR_ERROR,
               syscalls := [.setsockoptC] }
      else
        some { req := sock, ret := .DR_DONE, syscalls := [.setsockoptC] }
  else if sock.modifyCode = 2365 then
    if sock.modes.rst_udp = false then
      some { req := { sock with error := -18 }, ret := .DR_ERROR }
    else
      let result := env.setsockoptResult
      if result < 0 then
        some { req := { sock with error := result }, ret := .DR_ERROR,
               syscalls := [.setsockoptC] }
      else
        some { req := sock, ret := .DR_DONE, syscalls := [.setsockoptC] }
  else
    none

/- Modelled from the spec: Attach_Request is declared extern in
   dev-net.c and its body is not among the sources.  The spec says the
   accept handler appends the new request to the listener's
   pending-accept queue and that the queue is FIFO in arrival order, so
   it is modelled as appending at the tail. -/
def Attach_Request (queue : List SockReqBase) (req : SockReqBase) :
    List SockReqBase :=
  queue ++ [req]

/- Environment for Accept_Socket: the accept() outcome (the new handle,
   or none for BAD_SOCKET), GET_ERROR after a failed accept, the peer
   address accept reported, the option-call outcomes on the new handle
   with the GET_ERROR value on their failure, the getsockname result for
   the new socket, and the identity of the zero-filled allocation. -/
structure AcceptEnv where
  acceptResult : Option Nat := some 0
  errno : Int := 0
  peerIp : Nat := 0
  peerPort : Nat := 0
  sso : SsoEnv := {}
  ssoErrno : Int := 0
  newLocalIp : Nat := 0
  newLocalPort : Nat := 0
  allocId : Nat := 1
deriving DecidableEq

/- The request Accept_Socket allocates for an accepted connection: a
   zero fill, then the listener's device association, RRF_OPEN, the
   RSM_OPEN and RSM_CONNECT state bits, the new handle, the remote
   endpoint from accept and the local endpoint from Get_Local_IP. -/
def Accept_news (env : AcceptEnv) (req : SockReq) (h : Nat) : SockReqBase :=
  { id := env.allocId,
    device := req.device,
    flags := { rrf_open := true },
    state := { rsm_open := true, rsm_connect := true },
    requestee_socket := h,
    remote_ip := env.peerIp,
    remote_port := env.peerPort,
    local_ip := env.newLocalIp,
    local_port := env.newLocalPort }

/- Accept_Socket: a failed accept pends on NE_WOULDBLOCK and otherwise
   errors with GET_ERROR; failure of the option calls on the new handle
   errors with GET_ERROR; on success the new request is built, attached
   to the listener's queue, EVT_ACCEPT is signalled on the listener, and
   the listener itself stays DR_PEND to accept further connections. -/
def Accept_Socket (env : AcceptEnv) (req : SockReq) : HandlerOut :=
  match env.acceptResult with
  | none =>
    if env.errno = NE_WOULDBLOCK then
      { req := req, ret := .DR_PEND,
        syscalls := [.acceptC req.requestee_socket] }
    else
      { req := { req with error := env.errno }, ret := .DR_ERROR,
        syscalls := [.acceptC req.requestee_socket] }
  | some h =>
    if Set_Sock_Options env.sso then
      let news := Accept_news env req h
      { req := { req with common_sock := Attach_Request req.common_sock news },
        ret := .DR_PEND, signals := [(req.id, .EVT_ACCEPT)],
        syscalls := [.acceptC req.requestee_socket, .getsocknameC h] }
    else
      { req := { req with error := env.ssoErrno }, ret := .DR_ERROR,
        syscalls := [.acceptC req.requestee_socket] }

/- Iterated invocation of the write-direction transfer handler, one
   environment per call, as the owning runtime would re-invoke a pending
   send. -/
def runSends : SockReq → List TransferEnv → List HandlerOut
  | _, [] => []
  | req, e :: es =>
    let o := Transfer_Socket e req
    o :: runSends o.req es

/- OS contract on a sequence of send environments: each syscall return
   value is at most the byte count the handler asked for at that point
   (a send can never transfer more than requested). -/
def validSends : SockReq → List TransferEnv → Bool
  | _, [] => true
  | req, e :: es =>
    decide (e.ioResult ≤ ((min (req.length - req.actual) MAX_TRANSFER : Nat) : Int)) &&
    validSends (Transfer_Socket e req).req es

/- True when the invocation emitted the EVT_WROTE completion. -/
def hasWrote (o : HandlerOut) : Bool :=
  o.signals.any (fun s => decide (s.2 = EvType.EVT_WROTE))

/- Checker for a send trace against total length L, threading the
   previous value of actual: actual never decreases, never exceeds L, a
   DR_DONE step has actual = L and the wrote signal, and the step whose
   increment makes actual reach L is a DR_DONE step with the wrote
   signal. -/
def sendSeqOk (L : Nat) : Nat → List HandlerOut → Bool
  | _, [] => true
  | prev, o :: t =>
    decide (prev ≤ o.req.actual) &&
    decide (o.req.actual ≤ L) &&
    (if o.ret = DRet.DR_DONE then
        decide (o.req.actual = L) && hasWrote o
      else true) &&
    (if prev < L ∧ o.req.actual = L then
        decide (o.ret = DRet.DR_DONE) && hasWrote o
      else true) &&
    sendSeqOk L o.req.actual t

/- Number of CLOSE_SOCKET calls in a trace. -/
def countCloses : List OsCall → Nat
  | [] => 0
  | .closeSock _ :: t => countCloses t + 1
  | _ :: t => countCloses t

/- Number of OS_FREE(host_info) calls in a trace. -/
def countFrees : List OsCall → Nat
  | [] => 0
  | .freeHostInfo :: t => countFrees t + 1
  | _ :: t => countFrees t

/- Concrete requests and environments used by counterexamples and
   witnesses. -/
def freshReq : SockReq := {}

def tcpConnReq : SockReq :=
  { id := 4, state := { rsm_open := true, rsm_connect := true },
    requestee_socket := 3, command := .RDC_READ, length := 10 }

/- Claim C1. -/

def c1req : SockReq :=
  { error := 7, state := { rsm_open := true, rsm_connect := true },
    requestee_socket := 3 }

/-- C1 counterexample: a connect invocation on a request whose error slot
holds the stale value 7 (and which is already connected, so the attempt
completes with DR_DONE) returns with the error slot still 7 — the slot
is not set to zero at the start of the operation attempt. -/
theorem connect_stale_error_cex :
    (Connect_Socket {} c1req).ret = DRet.DR_DONE ∧
    (Connect_Socket {} c1req).req.error = 7 ∧
    ¬ (Connect_Socket {} c1req).req.error = 0 := by
  refine ⟨rfl, rfl, ?_⟩
  decide

/-- C1 (amended): only the open and close handlers clear the request's
error slot at the start of the operation attempt — their entire outcome
is independent of the incoming error value; the remaining handlers leave
a stale error value in place unless the attempt itself records a new
failure. -/
theorem open_close_clear_error_at_entry (oenv : OpenEnv) (cenv : CloseEnv)
    (req : SockReq) :
    Open_Socket oenv { req with error := 0 } = Open_Socket oenv req ∧
    Close_Socket cenv { req with error := 0 } = Close_Socket cenv req := by
  obtain ⟨⟨i, d, c, e, m, s, f, rs, l, a, cd, mc, li, lp, ri, rp, hi⟩, q⟩ := req
  exact ⟨rfl, rfl⟩

/- Claim C9. -/

/-- C9: invoking connect on a non-listener request that is already
CONNECTED returns DR_DONE immediately, with the request unchanged, no
event signalled and no system call issued. -/
theorem connect_already_connected_noop (env : ConnectEnv) (req : SockReq)
    (hlisten : req.modes.rst_listen = false)
    (hconn : req.state.rsm_connect = true) :
    Connect_Socket env req =
      { req := req, ret := DRet.DR_DONE, signals := [], syscalls := [] } := by
  simp [Connect_Socket, hlisten, hconn]

/-- C9 witness: the theorem applied to a concrete connected TCP request. -/
theorem connect_already_connected_noop_witness :
    Connect_Socket {} tcpConnReq =
      { req := tcpConnReq, ret := DRet.DR_DONE, signals := [], syscalls := [] } :=
  connect_already_connected_noop {} tcpConnReq rfl rfl

/- Claim C6. -/

/-- C6: a receive invocation on a CONNECTED (and OPEN) TCP request whose
underlying read returns zero bytes clears the CONNECTED state flag,
leaves the OPEN state flag set, sets actual to zero, signals the
peer-closed EVT_CLOSE event on the request, and returns DR_DONE. -/
theorem recv_zero_peer_close (env : TransferEnv) (req : SockReq)
    (hcmd : req.command = RDC.RDC_READ)
    (hconn : req.state.rsm_connect = true)
    (hopen : req.state.rsm_open = true)
    (htcp : req.modes.rst_udp = false)
    (hz : env.ioResult = 0) :
    (Transfer_Socket env req).ret = DRet.DR_DONE ∧
    (Transfer_Socket env req).req.state.rsm_connect = false ∧
    (Transfer_Socket env req).req.state.rsm_open = true ∧
    (Transfer_Socket env req).req.actual = 0 ∧
    (Transfer_Socket env req).signals = [(req.id, EvType.EVT_CLOSE)] := by
  simp [Transfer_Socket, hcmd, hconn, hopen, hz]

/-- C6 witness: the theorem applied to a concrete connected TCP request
with a zero-byte read. -/
theorem recv_zero_peer_close_witness :
    (Transfer_Socket { ioResult := 0 } tcpConnReq).ret = DRet.DR_DONE ∧
    (Transfer_Socket { ioResult := 0 } tcpConnReq).req.state.rsm_connect = false ∧
    (Transfer_Socket { ioResult := 0 } tcpConnReq).req.state.rsm_open = true ∧
    (Transfer_Socket { ioResult := 0 } tcpConnReq).req.actual = 0 ∧
    (Transfer_Socket { ioResult := 0 } tcpConnReq).signals =
      [(tcpConnReq.id, EvType.EVT_CLOSE)] :=
  recv_zero_peer_close { ioResult := 0 } tcpConnReq rfl rfl rfl rfl rfl

/- Claim C10. -/

/-- C10: the lookup handler sets the DNS scratch pointer host_info to
NULL at entry and never allocates it, and it never overlays a DNS handle
onto the socket-handle slot (requestee is untouched); consequently a
subsequent close of the request never takes the DNS-abort branch: it
frees no scratch memory and never replaces the socket handle with the
length field. -/
theorem lookup_leaves_no_dns_state (env : LookupEnv) (cenv : CloseEnv)
    (req : SockReq) :
    (Lookup_Socket env req).req.host_info = none ∧
    (Lookup_Socket env req).req.requestee_socket = req.requestee_socket ∧
    countFrees (Close_Socket cenv (Lookup_Socket env req).req).syscalls = 0 ∧
    (Close_Socket cenv (Lookup_Socket env req).req).req.requestee_socket =
      (Lookup_Socket env req).req.requestee_socket := by
  rcases env with ⟨hip, errno⟩
  cases hip <;>
    simp [Lookup_Socket, Close_Socket, countFrees] <;>
    by_cases hopen : req.state.rsm_open <;>
    simp [hopen] <;>
    by_cases hc : cenv.closeOk <;>
    simp [hc, countFrees]

/- Claim C2. -/

def c2env : OpenEnv :=
  { socketResult := some 5, sso := { nonblockOk := false }, ssoErrno := 9 }

/-- C2 counterexample: an open attempt in which socket() succeeds with
handle 5 and applying the socket options (non-blocking mode) then fails
with OS code 9 returns DR_ERROR — yet the handle 5 is stored on the
request and the OPEN state flag is set, contradicting the claim that on
every failure path of open no handle is stored and OPEN is not set. -/
theorem open_sockopt_failure_keeps_handle_cex :
    (Open_Socket c2env freshReq).ret = DRet.DR_ERROR ∧
    (Open_Socket c2env freshReq).req.requestee_socket = 5 ∧
    (Open_Socket c2env freshReq).req.state.rsm_open = true ∧
    (Open_Socket c2env freshReq).req.error = 9 := by
  exact ⟨rfl, rfl, rfl, rfl⟩

/-- C2 (amended): if socket creation itself fails, open returns DR_ERROR
with the OS code recorded, no handle stored and OPEN clear; if creation
succeeds but applying the socket options fails, open returns DR_ERROR
with the OS code recorded, but the freshly created handle remains stored
on the request and the OPEN state flag remains set (per the options
layer contract the caller must treat the socket as unusable and close
it). -/
theorem open_failure_paths (env : OpenEnv) (req : SockReq) :
    (env.socketResult = none →
      (Open_Socket env req).ret = DRet.DR_ERROR ∧
      (Open_Socket env req).req.requestee_socket = req.requestee_socket ∧
      (Open_Socket env req).req.state.rsm_open = false ∧
      (Open_Socket env req).req.error = env.socketErrno) ∧
    (∀ h, env.socketResult = some h → Set_Sock_Options env.sso = false →
      (Open_Socket env req).ret = DRet.DR_ERROR ∧
      (Open_Socket env req).req.requestee_socket = h ∧
      (Open_Socket env req).req.state.rsm_open = true ∧
      (Open_Socket env req).req.error = env.ssoErrno) := by
  constructor
  · intro hn
    simp [Open_Socket, hn]
  · intro h hs hf
    simp [Open_Socket, hs, hf]

def c2wenv : OpenEnv :=
  { socketResult := some 7, sso := { nosigpipeOk := false }, ssoErrno := 22 }

/-- C2 witness: the amended theorem applied to a concrete open attempt
whose option call fails on the already-created socket 7. -/
theorem open_failure_paths_witness :
    (Open_Socket c2wenv freshReq).ret = DRet.DR_ERROR ∧
    (Open_Socket c2wenv freshReq).req.requestee_socket = 7 ∧
    (Open_Socket c2wenv freshReq).req.state.rsm_open = true ∧
    (Open_Socket c2wenv freshReq).req.error = 22 :=
  (open_failure_paths c2wenv freshReq).2 7 rfl rfl

/- Claim C3. -/

def c3req : SockReq :=
  { state := { rsm_open := true, rsm_connect := true },
    command := .RDC_WRITE, length := 4 }

def ewbEnv : TransferEnv := { ioResult := -1, errno := 11 }

/-- C3 counterexample: a write invocation (would-block) sets RSM_SEND;
after the dispatcher switches the request command to RDC_READ, a read
invocation (would-block) additionally sets RSM_RECEIVE without clearing
RSM_SEND — the code comment says the mode flag is cleared by the caller,
not here — so both flags are set at the same instant under a sequence of
transfer invocations alone. -/
theorem transfer_both_direction_flags_cex :
    (Transfer_Socket ewbEnv
      { (Transfer_Socket ewbEnv c3req).req with
        command := .RDC_READ }).req.state.rsm_send = true ∧
    (Transfer_Socket ewbEnv
      { (Transfer_Socket ewbEnv c3req).req with
        command := .RDC_READ }).req.state.rsm_receive = true := by
  exact ⟨rfl, rfl⟩

/- Helper: a receive invocation never changes RSM_SEND. -/
theorem transfer_recv_keeps_rsm_send (env : TransferEnv) (req : SockReq)
    (hcmd : req.command = RDC.RDC_READ) :
    (Transfer_Socket env req).req.state.rsm_send = req.state.rsm_send := by
  simp only [Transfer_Socket, hcmd]
  split_ifs <;> simp

/- Helper: a send invocation never changes RSM_RECEIVE. -/
theorem transfer_send_keeps_rsm_receive (env : TransferEnv) (req : SockReq)
    (hcmd : ¬ req.command = RDC.RDC_READ) :
    (Transfer_Socket env req).req.state.rsm_receive = req.state.rsm_receive := by
  simp only [Transfer_Socket, hcmd]
  split_ifs <;> simp_all

/-- C3 (amended): a single transfer invocation sets at most the state
flag of its own direction and never touches the flag of the other
direction; hence after one invocation on a request with neither flag set
the two flags are not both set.  Across a sequence of invocations the
device itself never clears either flag (the mode flag is cleared by the
caller, not by Transfer_Socket), so mutual exclusion at every instant
holds only if the caller clears the previous direction's flag before
invoking the other direction. -/
theorem transfer_sets_only_own_direction (env : TransferEnv) (req : SockReq) :
    (req.command = RDC.RDC_READ →
      (Transfer_Socket env req).req.state.rsm_send = req.state.rsm_send) ∧
    (¬ req.command = RDC.RDC_READ →
      (Transfer_Socket env req).req.state.rsm_receive =
        req.state.rsm_receive) ∧
    (req.state.rsm_send = false → req.state.rsm_receive = false →
      (Transfer_Socket env req).req.state.rsm_send = false ∨
      (Transfer_Socket env req).req.state.rsm_receive = false) := by
  refine ⟨fun hc => transfer_recv_keeps_rsm_send env req hc,
          fun hc => transfer_send_keeps_rsm_receive env req hc,
          fun h1 h2 => ?_⟩
  by_cases hcmd : req.command = RDC.RDC_READ
  · exact Or.inl ((transfer_recv_keeps_rsm_send env req hcmd).trans h1)
  · exact Or.inr ((transfer_send_keeps_rsm_receive env req hcmd).trans h2)

/-- C3 witness: the amended theorem applied to a concrete read
invocation on a request with neither direction flag set. -/
theorem transfer_sets_only_own_direction_witness :
    (Transfer_Socket ewbEnv tcpConnReq).req.state.rsm_send =
      tcpConnReq.state.rsm_send ∧
    ((Transfer_Socket ewbEnv tcpConnReq).req.state.rsm_send = false ∨
      (Transfer_Socket ewbEnv tcpConnReq).req.state.rsm_receive = false) := by
  obtain ⟨a, -, c⟩ := transfer_sets_only_own_direction ewbEnv tcpConnReq
  exact ⟨a rfl, c rfl rfl⟩

/- Claim C4. -/

def c4req : SockReq := { modes := { rst_udp := true }, modifyCode := 3171 }

def c4env : ModifyEnv := { setsockoptResult := -1, errno := 13 }

/-- C4 counterexample: a multicast modify on a UDP request whose
setsockopt fails (return value -1, OS error code GET_ERROR = 13) returns
DR_ERROR, but the request's error slot holds the raw setsockopt return
value -1 and not the OS-level error code 13 — the handler never calls
GET_ERROR on this path. -/
theorem modify_error_slot_cex :
    (Modify_Socket c4env c4req).map (fun o => o.ret) = some DRet.DR_ERROR ∧
    (Modify_Socket c4env c4req).map (fun o => o.req.error) = some (-1) ∧
    ¬ (Modify_Socket c4env c4req).map (fun o => o.req.error) =
        some c4env.errno := by
  refine ⟨rfl, rfl, ?_⟩
  decide

/-- C4 (amended): for either recognized modify sub-operation (multicast
3171 or TTL 2365) on a UDP request, if the underlying setsockopt call
fails (negative return value) then modify returns DR_ERROR and stores
the negative setsockopt return value itself — not the OS-level error
code, which is never fetched here — in the request's error slot. -/
theorem modify_failure_stores_result (env : ModifyEnv) (sock : SockReq)
    (hudp : sock.modes.rst_udp = true)
    (hcode : sock.modifyCode = 3171 ∨ sock.modifyCode = 2365)
    (hr : env.setsockoptResult < 0) :
    Modify_Socket env sock =
      some { req := { sock with error := env.setsockoptResult },
             ret := DRet.DR_ERROR, syscalls := [OsCall.setsockoptC] } := by
  rcases hcode with hc | hc <;> simp [Modify_Socket, hc, hudp, hr]

/-- C4 witness: the amended theorem applied to a concrete failing
multicast modify on a UDP request. -/
theorem modify_failure_stores_result_witness :
    Modify_Socket c4env c4req =
      some { req := { c4req with error := -1 },
             ret := DRet.DR_ERROR, syscalls := [OsCall.setsockoptC] } :=
  modify_failure_stores_result c4env c4req rfl (Or.inl rfl) (by decide)

/- Claim C8. -/

def c8req : SockReq :=
  { state := { rsm_open := true, rsm_connect := true }, requestee_socket := 6 }

/-- C8: close on a request whose OPEN state flag is clear returns
DR_DONE without issuing any system call and without touching the OS
handle; and for any request, closing twice in a row (with the OS-level
close succeeding where one is issued) returns DR_DONE both times and
releases the underlying handle at most once. -/
theorem close_idempotent (env1 env2 : CloseEnv) (req : SockReq)
    (h1 : env1.closeOk = true) :
    (Close_Socket env1 req).ret = DRet.DR_DONE ∧
    (Close_Socket env2 (Close_Socket env1 req).req).ret = DRet.DR_DONE ∧
    countCloses ((Close_Socket env1 req).syscalls ++
      (Close_Socket env2 (Close_Socket env1 req).req).syscalls) ≤ 1 ∧
    (req.state.rsm_open = false →
      (Close_Socket env1 req).syscalls = [] ∧
      (Close_Socket env1 req).req.requestee_socket = req.requestee_socket) := by
  by_cases hopen : req.state.rsm_open
  · by_cases hdns : req.host_info.isSome <;>
      simp [Close_Socket, hopen, hdns, h1, countCloses]
  · simp [Close_Socket, hopen, countCloses]

/-- C8 witness: the theorem applied to a concrete open connected request
whose OS-level close succeeds. -/
theorem close_idempotent_witness :
    (Close_Socket {} c8req).ret = DRet.DR_DONE ∧
    (Close_Socket {} (Close_Socket {} c8req).req).ret = DRet.DR_DONE ∧
    countCloses ((Close_Socket {} c8req).syscalls ++
      (Close_Socket {} (Close_Socket {} c8req).req).syscalls) ≤ 1 := by
  obtain ⟨a, b, c, -⟩ := close_idempotent {} {} c8req rfl
  exact ⟨a, b, c⟩

/- Claim C7. -/

def listenerReq : SockReq :=
  { id := 2, device := 1, modes := { rst_listen := true },
    state := { rsm_open := true, rsm_bind := true, rsm_listen := true },
    requestee_socket := 7, command := .RDC_CREATE }

def c7env : AcceptEnv :=
  { acceptResult := some 9, peerIp := 500, peerPort := 600,
    newLocalIp := 700, newLocalPort := 800, allocId := 3 }

/-- C7: a successful accept invocation on a listening request creates a
new request that inherits the listener's device association, is marked
OPEN and CONNECTED (state bits and RRF_OPEN), carries the accepted
handle, its remote endpoint from the accept call and its local endpoint
from the OS query; the new request is appended to the listener's
pending-accept queue; the EVT_ACCEPT event is signalled on the listener
request and not on the new one; and the listener returns DR_PEND.  A
would-block accept also returns DR_PEND, and no path of the accept
handler ever returns DR_DONE. -/
theorem accept_success_queues_child (env : AcceptEnv) (req : SockReq) (h : Nat)
    (hacc : env.acceptResult = some h)
    (hsso : Set_Sock_Options env.sso = true)
    (hid : ¬ env.allocId = req.id) :
    (Accept_Socket env req).ret = DRet.DR_PEND ∧
    (Accept_Socket env req).req.common_sock =
      req.common_sock ++ [Accept_news env req h] ∧
    (Accept_news env req h).state.rsm_open = true ∧
    (Accept_news env req h).state.rsm_connect = true ∧
    (Accept_news env req h).flags.rrf_open = true ∧
    (Accept_news env req h).requestee_socket = h ∧
    (Accept_news env req h).remote_ip = env.peerIp ∧
    (Accept_news env req h).remote_port = env.peerPort ∧
    (Accept_news env req h).local_ip = env.newLocalIp ∧
    (Accept_news env req h).local_port = env.newLocalPort ∧
    (Accept_news env req h).device = req.device ∧
    (Accept_Socket env req).signals = [(req.id, EvType.EVT_ACCEPT)] ∧
    ¬ (Accept_news env req h).id = req.id ∧
    (∀ e2 r2, (e2 : AcceptEnv).acceptResult = none →
      e2.errno = NE_WOULDBLOCK →
      (Accept_Socket e2 r2).ret = DRet.DR_PEND) ∧
    (∀ e3 r3, ¬ (Accept_Socket (e3 : AcceptEnv) r3).ret = DRet.DR_DONE) := by
  refine ⟨?_, ?_, rfl, rfl, rfl, rfl, rfl, rfl, rfl, rfl, rfl, ?_, hid,
    ?_, ?_⟩
  · simp [Accept_Socket, hacc, hsso]
  · simp [Accept_Socket, hacc, hsso, Attach_Request]
  · simp [Accept_Socket, hacc, hsso]
  · intro e2 r2 hn he
    simp [Accept_Socket, hn, he]
  · intro e3 r3
    rcases he3 : e3.acceptResult with _ | h3
    · by_cases hwb : e3.errno = NE_WOULDBLOCK <;>
        simp [Accept_Socket, he3, hwb]
    · by_cases hs : Set_Sock_Options e3.sso <;>
        simp [Accept_Socket, he3, hs]

/-- C7 witness: the theorem applied to a concrete listener accepting
handle 9 from peer 500:600. -/
theorem accept_success_queues_child_witness :
    (Accept_Socket c7env listenerReq).ret = DRet.DR_PEND ∧
    (Accept_Socket c7env listenerReq).req.common_sock =
      listenerReq.common_sock ++ [Accept_news c7env listenerReq 9] ∧
    (Accept_Socket c7env listenerReq).signals =
      [(listenerReq.id, EvType.EVT_ACCEPT)] := by
  obtain ⟨a, b, -, -, -, -, -, -, -, -, -, s, -, -, -⟩ :=
    accept_success_queues_child c7env listenerReq 9 rfl rfl (by decide)
  exact ⟨a, b, s⟩

/- Claim C5. -/

def c5req : SockReq :=
  { state := { rsm_open := true, rsm_connect := true },
    command := .RDC_WRITE, length := 10, actual := 3 }

/-- C5 counterexample: a send invocation whose sendto would block
(negative return, GET_ERROR = NE_WOULDBLOCK) returns DR_PEND with the
actual-transferred counter unchanged at 3 — a PEND invocation does not
strictly increase actual. -/
theorem send_pend_without_progress_cex :
    (Transfer_Socket ewbEnv c5req).ret = DRet.DR_PEND ∧
    (Transfer_Socket ewbEnv c5req).req.actual = 3 ∧
    ¬ 3 < (Transfer_Socket ewbEnv c5req).req.actual := by
  refine ⟨rfl, rfl, ?_⟩
  decide

/- Helper: value of Transfer_Socket on the precondition-violation
   branch (neither CONNECTED nor UDP). -/
theorem send_eq_pre (env : TransferEnv) (req : SockReq)
    (hpre : req.state.rsm_connect = false ∧ req.modes.rst_udp = false) :
    Transfer_Socket env req =
      { req := { req with error := -18 }, ret := .DR_ERROR } := by
  simp [Transfer_Socket, hpre]

/- Helper: value of Transfer_Socket on the send branch whose syscall
   succeeds and whose increment reaches the total length. -/
theorem send_eq_ok (env : TransferEnv) (req : SockReq)
    (hne : ¬ req.command = RDC.RDC_READ)
    (hpre : ¬ (req.state.rsm_connect = false ∧ req.modes.rst_udp = false))
    (hio : 0 ≤ env.ioResult)
    (hfin : req.length ≤ req.actual + env.ioResult.toNat) :
    Transfer_Socket env req =
      { req := { req with
          state := { req.state with rsm_send := true },
          common_data := req.common_data + env.ioResult.toNat,
          actual := req.actual + env.ioResult.toNat },
        ret := .DR_DONE, signals := [(req.id, .EVT_WROTE)],
        syscalls := [.sendtoC req.requestee_socket
          (min (req.length - req.actual) MAX_TRANSFER)] } := by
  simp [Transfer_Socket, hne, hpre, hio, hfin]

/- Helper: value of Transfer_Socket on the send branch whose syscall
   succeeds but leaves actual short of the total length. -/
theorem send_eq_pend (env : TransferEnv) (req : SockReq)
    (hne : ¬ req.command = RDC.RDC_READ)
    (hpre : ¬ (req.state.rsm_connect = false ∧ req.modes.rst_udp = false))
    (hio : 0 ≤ env.ioResult)
    (hfin : ¬ req.length ≤ req.actual + env.ioResult.toNat) :
    Transfer_Socket env req =
      { req := { req with
          state := { req.state with rsm_send := true },
          flags := { req.flags with rrf_active := true },
          common_data := req.common_data + env.ioResult.toNat,
          actual := req.actual + env.ioResult.toNat },
        ret := .DR_PEND,
        syscalls := [.sendtoC req.requestee_socket
          (min (req.length - req.actual) MAX_TRANSFER)] } := by
  simp [Transfer_Socket, hne, hpre, hio, hfin]

/- Helper: value of Transfer_Socket on the send branch whose syscall
   would block. -/
theorem send_eq_wb (env : TransferEnv) (req : SockReq)
    (hne : ¬ req.command = RDC.RDC_READ)
    (hpre : ¬ (req.state.rsm_connect = false ∧ req.modes.rst_udp = false))
    (hneg : env.ioResult < 0)
    (hwb : env.errno = NE_WOULDBLOCK) :
    Transfer_Socket env req =
      { req := { req with state := { req.state with rsm_send := true } },
        ret := .DR_PEND,
        syscalls := [.sendtoC req.requestee_socket
          (min (req.length - req.actual) MAX_TRANSFER)] } := by
  simp [Transfer_Socket, hne, hpre, not_le.mpr hneg, hwb]

/- Helper: value of Transfer_Socket on the send branch whose syscall
   fails with a genuine error. -/
theorem send_eq_err (env : TransferEnv) (req : SockReq)
    (hne : ¬ req.command = RDC.RDC_READ)
    (hpre : ¬ (req.state.rsm_connect = false ∧ req.modes.rst_udp = false))
    (hneg : env.ioResult < 0)
    (hwb : ¬ env.errno = NE_WOULDBLOCK) :
    Transfer_Socket env req =
      { req := { req with
          state := { req.state with rsm_send := true },
          error := env.errno },
        ret := .DR_ERROR,
        syscalls := [.sendtoC req.requestee_socket
          (min (req.length - req.actual) MAX_TRANSFER)] } := by
  simp [Transfer_Socket, hne, hpre, not_le.mpr hneg, hwb]

/- Helper: one write-direction invocation under the OS contract (the
   syscall never reports more bytes than the handler asked for): actual
   never decreases and never exceeds length; length and command are
   untouched; a DR_DONE return has actual = length with the wrote
   signal; and the invocation whose increment makes actual reach length
   returns DR_DONE with the wrote signal. -/
theorem send_step (env : TransferEnv) (req : SockReq)
    (hcmd : req.command = RDC.RDC_WRITE)
    (hal : req.actual ≤ req.length)
    (hr : env.ioResult ≤
      ((min (req.length - req.actual) MAX_TRANSFER : Nat) : Int)) :
    req.actual ≤ (Transfer_Socket env req).req.actual ∧
    (Transfer_Socket env req).req.actual ≤ req.length ∧
    (Transfer_Socket env req).req.length = req.length ∧
    (Transfer_Socket env req).req.command = req.command ∧
    ((Transfer_Socket env req).ret = DRet.DR_DONE →
      (Transfer_Socket env req).req.actual = req.length ∧
      hasWrote (Transfer_Socket env req) = true) ∧
    (req.actual < req.length →
      (Transfer_Socket env req).req.actual = req.length →
      (Transfer_Socket env req).ret = DRet.DR_DONE ∧
      hasWrote (Transfer_Socket env req) = true) := by
  have hne : ¬ req.command = RDC.RDC_READ := by
    rw [hcmd]
    decide
  have hrn : env.ioResult.toNat ≤ min (req.length - req.actual) MAX_TRANSFER := by
    rcases le_or_lt 0 env.ioResult with hpos | hneg
    · exact Int.toNat_le.mpr hr
    · simp [Int.toNat_of_nonpos hneg.le]
  have hd2 : env.ioResult.toNat ≤ req.length - req.actual := le_trans hrn (min_le_left _ _)
  by_cases hpre : req.state.rsm_connect = false ∧ req.modes.rst_udp = false
  · rw [send_eq_pre env req hpre]
    refine ⟨le_refl _, hal, rfl, rfl, fun hd => ?_, fun hlt heq => ?_⟩
    · simp at hd
    · exfalso
      simp at heq
      omega
  · by_cases hio : 0 ≤ env.ioResult
    · by_cases hfin : req.length ≤ req.actual + env.ioResult.toNat
      · rw [send_eq_ok env req hne hpre hio hfin]
        refine ⟨?_, ?_, rfl, rfl, fun hd => ⟨?_, ?_⟩, fun hlt heq => ⟨rfl, ?_⟩⟩
        · simp
        · simp
          omega
        · simp
          omega
        · simp [hasWrote]
        · simp [hasWrote]
      · rw [send_eq_pend env req hne hpre hio hfin]
        refine ⟨?_, ?_, rfl, rfl, fun hd => ?_, fun hlt heq => ?_⟩
        · simp
        · simp
          omega
        · simp at hd
        · exfalso
          simp at heq
          omega
    · have hneg : env.ioResult < 0 := lt_of_not_ge hio
      by_cases hwb : env.errno = NE_WOULDBLOCK
      · rw [send_eq_wb env req hne hpre hneg hwb]
        refine ⟨le_refl _, hal, rfl, rfl, fun hd => ?_, fun hlt heq => ?_⟩
        · simp at hd
        · exfalso
          simp at heq
          omega
      · rw [send_eq_err env req hne hpre hneg hwb]
        refine ⟨le_refl _, hal, rfl, rfl, fun hd => ?_, fun hlt heq => ?_⟩
        · simp at hd
        · exfalso
          simp at heq
          omega

/-- C5 (amended): over every sequence of send invocations on one request
with total requested length L, under the OS contract that a send never
reports more bytes than asked for, the actual-transferred counter never
decreases and never exceeds L (it increases strictly exactly on the
invocations whose syscall accepts at least one byte — a would-block
invocation returns PEND with actual unchanged); every invocation that
returns DR_DONE has actual exactly L and signals the wrote completion;
and the invocation whose increment makes actual reach L returns DR_DONE
with the wrote signal. -/
theorem send_sequence_monotone (envs : List TransferEnv) (req : SockReq)
    (hcmd : req.command = RDC.RDC_WRITE)
    (hal : req.actual ≤ req.length)
    (hv : validSends req envs = true) :
    sendSeqOk req.length req.actual (runSends req envs) = true := by
  induction envs generalizing req with
  | nil => simp [runSends, sendSeqOk]
  | cons e es ih =>
    have hv1 : (decide (e.ioResult ≤
        ((min (req.length - req.actual) MAX_TRANSFER : Nat) : Int)) &&
        validSends (Transfer_Socket e req).req es) = true := hv
    rw [Bool.and_eq_true] at hv1
    obtain ⟨hr0, hv2⟩ := hv1
    have hr : e.ioResult ≤
        ((min (req.length - req.actual) MAX_TRANSFER : Nat) : Int) :=
      of_decide_eq_true hr0
    obtain ⟨h1, h2, h3, h4, h5, h6⟩ := send_step e req hcmd hal hr
    have hrec : sendSeqOk req.length (Transfer_Socket e req).req.actual
        (runSends (Transfer_Socket e req).req es) = true := by
      have := ih (Transfer_Socket e req).req (h4.trans hcmd) (h3 ▸ h2) hv2
      rwa [h3] at this
    simp only [runSends, sendSeqOk, Bool.and_eq_true, decide_eq_true_eq]
    refine ⟨⟨⟨⟨h1, h2⟩, ?_⟩, ?_⟩, hrec⟩
    · split
      · rename_i hdone
        obtain ⟨ha, hw⟩ := h5 hdone
        simp [ha, hw]
      · rfl
    · split
      · rename_i hcross
        obtain ⟨hdone, hw⟩ := h6 hcross.1 hcross.2
        simp [hdone, hw]
      · rfl

def c5wreq : SockReq :=
  { state := { rsm_open := true, rsm_connect := true },
    command := .RDC_WRITE, length := 10 }

def c5envs : List TransferEnv :=
  [{ ioResult := 4 }, { ioResult := -1, errno := 11 }, { ioResult := 6 }]

/-- C5 witness: the amended theorem applied to a concrete send sequence
of total length 10 that transfers 4 bytes, would-block once, and then
transfers the remaining 6 bytes. -/
theorem send_sequence_monotone_witness :
    sendSeqOk c5wreq.length c5wreq.actual (runSends c5wreq c5envs) = true :=
  send_sequence_monotone c5envs c5wreq rfl (by decide) (by decide)
